import Mathlib

/-!
# Verification of the gestion_saas authentication core

A shallow embedding, in Lean 4, of the service layer of the `gestion_saas`
repository (`app/core/security.py`, `app/services/auth.py`,
`app/services/project.py`, `app/services/membership.py`, and the ORM models
under `app/models/`), together with theorems settling the specification's
claims about it.

Modelling conventions:
* Byte strings fed to the hash primitives (`.encode("utf-8")` in Python) are
  `List Nat`; UUIDs are `Nat`; wall-clock instants (`datetime.utcnow()`) are
  `Nat` seconds and are passed explicitly to every operation that reads the
  clock.
* The cryptographic hashes (bcrypt, SHA-256) and the JWT signature are
  modelled symbolically: a digest or a signed token records the exact inputs
  it was produced from, and two digests/tokens are equal iff those inputs
  are.  This encodes the standard assumptions that the hashes are
  collision-free and that a bcrypt digest (a `$2b$...` string) is never
  textually equal to a SHA-256 hex digest; no other property of the
  primitives is used.
* Randomness (generated ids, salts, API keys, invitation tokens) is passed
  in as explicit parameters.
* Database state is an explicit `Store` record of row lists; SQLAlchemy
  queries become list searches, and a transaction is the pure construction
  of the next store, returned only when the whole operation succeeds.
-/

namespace GestionSaas

/-- Wall-clock instants, `datetime.utcnow()`, as seconds. -/
abbrev Time := Nat

/-- UUID values (`uuid.uuid4()` outputs, passed in explicitly). -/
abbrev Uuid := Nat

/-- UTF-8 byte strings, the result of Python's `str.encode("utf-8")`. -/
abbrev Bytes := List Nat

/-! ## Credential primitives — `app/core/security.py` -/

/-- Symbolic one-way digests.  `pw salt input` is the bcrypt digest
`bcrypt.hashpw(input, salt)` (the input as stored is already truncated by the
caller); `sec input` is `hashlib.sha256(input).hexdigest()`.  Constructor
distinctness encodes that a bcrypt digest string is never equal to a SHA-256
hex digest, and injectivity per constructor encodes collision-freeness. -/
inductive Digest where
  | pw (salt : Nat) (input : Bytes)
  | sec (input : Bytes)
  deriving DecidableEq, Repr

/-- `hash_password` (security.py:19-24): truncate the UTF-8 bytes to 72,
then bcrypt-hash with a fresh salt (the salt is a parameter here). -/
def hash_password (password : Bytes) (salt : Nat) : Digest :=
  Digest.pw salt (password.take 72)

/-- `verify_password` (security.py:12-16): truncate the candidate to 72
bytes and let `bcrypt.checkpw` recompute the digest under the stored salt.
On a non-bcrypt digest, `checkpw` does not accept. -/
def verify_password (plain_password : Bytes) (hashed_password : Digest) : Bool :=
  match hashed_password with
  | Digest.pw _ stored => plain_password.take 72 == stored
  | Digest.sec _ => false

/-- `hash_secret` (security.py:27-29): SHA-256 hex digest of the bytes. -/
def hash_secret (secret : Bytes) : Digest :=
  Digest.sec secret

/-- `verify_secret` (security.py:32-34): recompute the SHA-256 hex digest
and compare for exact equality. -/
def verify_secret (secret : Bytes) (hashed_secret : Digest) : Bool :=
  hash_secret secret == hashed_secret

/-- `verify_api_key` (security.py:105-107). -/
def verify_api_key (api_key : Bytes) (api_key_hash : Digest) : Bool :=
  verify_secret api_key api_key_hash

/-- `verify_client_secret` (security.py:110-112). -/
def verify_client_secret (client_secret : Bytes) (client_secret_hash : Digest) : Bool :=
  verify_secret client_secret client_secret_hash

/-! ## Token codec — `app/core/security.py` -/

/-- JWT claim values occurring in this system: strings, integers
(`exp`/`iat` timestamps), UUIDs rendered as strings (`str(uuid)`, parsed
back with `uuid.UUID`), and role lists. -/
inductive ClaimVal where
  | s (v : String)
  | n (v : Nat)
  | uuid (v : Uuid)
  | roles (v : List String)
  deriving DecidableEq, Repr

/-- A JWT claim map (a Python `dict[str, Any]`), as an association list in
insertion order. -/
abbrev ClaimMap := List (String × ClaimVal)

/-- Look up a key in a claim map (`payload.get(k)` / `payload[k]`). -/
def claimGet (m : ClaimMap) (k : String) : Option ClaimVal :=
  match m.find? (fun kv => kv.1 == k) with
  | some kv => some kv.2
  | none => none

/-- Set one key in a claim map: overwrite in place if present (a dict has
at most one entry per key), else append — Python `dict` assignment
semantics. -/
def claimSet (m : ClaimMap) (k : String) (v : ClaimVal) : ClaimMap :=
  match m with
  | [] => [(k, v)]
  | a :: rest => if a.1 == k then (k, v) :: rest else a :: claimSet rest k v

/-- `d.update(kvs)` on a Python dict: set each pair in order. -/
def dictUpdate (m : ClaimMap) (kvs : List (String × ClaimVal)) : ClaimMap :=
  kvs.foldl (fun acc kv => claimSet acc kv.1 kv.2) m

/-- A symbolically signed JWT: `jose.jwt.encode(payload, secret, algorithm)`
records exactly its payload, signing secret and algorithm. -/
structure Jwt where
  payload : ClaimMap
  secret : Bytes
  alg : String
  deriving DecidableEq, Repr

/-- A token presented to the codec: either a well-formed JWT, or any other
string (malformed input, which `jose` rejects with a `JWTError`). -/
inductive Token where
  | jwt (j : Jwt)
  | malformed (s : String)
  deriving DecidableEq, Repr

/-- `settings.ACCESS_TOKEN_EXPIRE_MINUTES` (config.py:17). -/
def settingsAccessTokenExpireMinutes : Nat := 30

/-- `create_access_token` (security.py:57-74).  `expires_delta` is the
optional `timedelta` in seconds; a `None` **or zero** delta is falsy in
Python, so both fall back to the settings default.  `now` is
`datetime.utcnow()`. -/
def create_access_token (data : ClaimMap) (secret_key : Bytes) (alg : String)
    (expires_delta : Option Nat) (now : Time) : Token :=
  let expire : Time :=
    match expires_delta with
    | some d => if d ≠ 0 then now + d else now + 60 * settingsAccessTokenExpireMinutes
    | none => now + 60 * settingsAccessTokenExpireMinutes
  Token.jwt ⟨dictUpdate data [("exp", ClaimVal.n expire), ("iat", ClaimVal.n now)],
             secret_key, alg⟩

/-- `create_refresh_token` (security.py:77-89): fixed 7-day expiry and an
added `type: "refresh"` claim. -/
def create_refresh_token (data : ClaimMap) (secret_key : Bytes) (alg : String)
    (now : Time) : Token :=
  let expire : Time := now + 7 * 24 * 60 * 60
  Token.jwt ⟨dictUpdate data
               [("exp", ClaimVal.n expire), ("iat", ClaimVal.n now),
                ("type", ClaimVal.s "refresh")],
             secret_key, alg⟩

/-- `decode_token` (security.py:92-102): verify signature (secret and
algorithm must match) and the `exp` claim when present (`jose` rejects a
token whose `exp` is before `now`, and one whose `exp` is not an integer);
every failure is caught and becomes `none`. -/
def decode_token (token : Token) (secret_key : Bytes) (alg : String)
    (now : Time) : Option ClaimMap :=
  match token with
  | Token.malformed _ => none
  | Token.jwt j =>
    if j.secret = secret_key ∧ j.alg = alg then
      match claimGet j.payload "exp" with
      | some (ClaimVal.n e) => if e < now then none else some j.payload
      | some _ => none
      | none => some j.payload
    else
      none

/-! ## Data model — `app/models/` -/

/-- `Project` row (app/models/project.py).  `jwt_expiration_minutes`
defaults to 30 and `ProjectUpdate` only accepts positive values. -/
structure Project where
  id : Uuid
  name : String
  slug : String
  tenant_strategy : String
  api_key_hash : Digest
  client_id : String
  client_secret_hash : Digest
  jwt_secret : Bytes
  jwt_algorithm : String := "HS256"
  jwt_expiration_minutes : Nat := 30
  is_active : Bool := true
  deriving DecidableEq, Repr

/-- `Tenant` row (app/models/tenant.py). -/
structure Tenant where
  id : Uuid
  project_id : Uuid
  name : String
  slug : String
  schema_name : Option String := none
  is_active : Bool := true
  deriving DecidableEq, Repr

/-- `User` row, in the final global-identity shape the services construct
(`User(email=…, password_hash=…, full_name=…, email_verified=…)` in
app/services/auth.py:151-156 and app/services/membership.py:258-263). -/
structure User where
  id : Uuid
  email : String
  password_hash : Digest
  full_name : Option String := none
  is_active : Bool := true
  email_verified : Bool := false
  deriving DecidableEq, Repr

/-- `Membership` row (app/models/membership.py), with the declared unique
constraint `uq_membership_user_tenant` on `(user_id, tenant_id)` enforced
by the store's insert operation below. -/
structure Membership where
  id : Uuid
  user_id : Uuid
  tenant_id : Uuid
  roles : List String := []
  is_active : Bool := true
  deriving DecidableEq, Repr

/-- `Invitation` row (app/models/invitation.py). -/
structure Invitation where
  id : Uuid
  email : String
  tenant_id : Uuid
  roles : List String := []
  token : String
  expires_at : Time
  used_at : Option Time := none
  deriving DecidableEq, Repr

/-- `Invitation.is_expired` (invitation.py:54-57): `utcnow() > expires_at`. -/
def Invitation.is_expired (inv : Invitation) (now : Time) : Bool :=
  inv.expires_at < now

/-- `Invitation.is_used` (invitation.py:59-62). -/
def Invitation.is_used (inv : Invitation) : Bool :=
  inv.used_at.isSome

/-- `Invitation.is_valid` (invitation.py:64-67): neither expired nor used. -/
def Invitation.is_valid (inv : Invitation) (now : Time) : Bool :=
  !inv.is_expired now && !inv.is_used

/-- The database state: one list of rows per table, in insertion order
(SQLAlchemy `select` over these models returns rows without an explicit
ordering; the embedding fixes insertion order). -/
structure Store where
  projects : List Project := []
  tenants : List Tenant := []
  users : List User := []
  memberships : List Membership := []
  invitations : List Invitation := []
  deriving DecidableEq, Repr

/-- The typed failures of `app/core/exceptions.py` (the module is imported
by every service as `UnauthorizedError`, `NotFoundError`, `BadRequestError`,
`ConflictError`; each carries one message).  `integrityError` stands for a
database unique-constraint violation escaping `commit` uncaught (SQLAlchemy
`IntegrityError`), and `exception` for any other uncaught Python error. -/
inductive Err where
  | unauthorized (msg : String)
  | notFound (msg : String)
  | badRequest (msg : String)
  | conflict (msg : String)
  | integrityError
  | exception (msg : String)
  deriving DecidableEq, Repr

/-- Python's `str.lower()` on the characters of a string (executable,
character-wise). -/
def pyLower (s : String) : String :=
  String.mk (s.data.map Char.toLower)

/-- Case-insensitive email equality: `User.email.ilike(email)` for a
wildcard-free pattern (every caller passes a literal address). -/
def emailMatches (stored queried : String) : Bool :=
  pyLower stored == pyLower queried

/-! ## Store queries shared by the services -/

/-- `select(User).where(User.email.ilike(email))`, `scalar_one_or_none`. -/
def Store.getUserByEmail (s : Store) (email : String) : Option User :=
  s.users.find? (fun u => emailMatches u.email email)

/-- `select(User).where(User.id == user_id)`. -/
def Store.getUser (s : Store) (user_id : Uuid) : Option User :=
  s.users.find? (fun u => u.id == user_id)

/-- `select(Membership).where(user_id == …, tenant_id == …)`. -/
def Store.getMembership (s : Store) (user_id tenant_id : Uuid) : Option Membership :=
  s.memberships.find? (fun m => m.user_id == user_id && m.tenant_id == tenant_id)

/-- `select(Tenant).where(Tenant.id == tenant_id)`. -/
def Store.getTenant (s : Store) (tenant_id : Uuid) : Option Tenant :=
  s.tenants.find? (fun t => t.id == tenant_id)

/-- `select(Project).where(Project.id == project_id)`. -/
def Store.getProject (s : Store) (project_id : Uuid) : Option Project :=
  s.projects.find? (fun p => p.id == project_id)

/-- `select(Tenant).options(selectinload(Tenant.project)).where(id == …)`:
the tenant together with its owning project.  The `project_id` foreign key
guarantees the project row exists for any store reachable through the
services. -/
def Store.getTenantWithProject (s : Store) (tenant_id : Uuid) :
    Option (Tenant × Project) :=
  match s.getTenant tenant_id with
  | none => none
  | some t =>
    match s.getProject t.project_id with
    | none => none
    | some p => some (t, p)

/-- Insert a membership row, enforcing the `uq_membership_user_tenant`
unique constraint declared on the table: a duplicate `(user_id, tenant_id)`
pair makes `commit` raise `IntegrityError` and the transaction roll back. -/
def Store.insertMembership (s : Store) (m : Membership) : Except Err Store :=
  if s.memberships.any (fun x => x.user_id == m.user_id && x.tenant_id == m.tenant_id) then
    Except.error Err.integrityError
  else
    Except.ok { s with memberships := s.memberships ++ [m] }

/-! ## Authentication service — `app/services/auth.py` -/

/-- `MembershipWithTenant` (app/schemas/membership.py): one membership row
denormalized with tenant and project names. -/
structure MembershipWithTenant where
  id : Uuid
  tenant_id : Uuid
  tenant_name : String
  tenant_slug : String
  project_id : Uuid
  project_name : String
  roles : List String
  is_active : Bool
  deriving DecidableEq, Repr

/-- `LoginResponse` (app/schemas/auth.py). -/
structure LoginResponse where
  user_id : Uuid
  email : String
  full_name : Option String
  memberships : List MembershipWithTenant
  deriving DecidableEq, Repr

/-- `TokenResponse` (app/schemas/auth.py). -/
structure TokenResponse where
  access_token : Token
  refresh_token : Token
  expires_in : Nat
  deriving DecidableEq, Repr

namespace AuthService

/-- `_verify_credentials` (auth.py:336-345): user looked up by email,
`none` alike for a missing user, an inactive user, and a wrong password. -/
def verify_credentials (s : Store) (email : String) (password : Bytes) :
    Option User :=
  match s.getUserByEmail email with
  | none => none
  | some user =>
    if !user.is_active then none
    else if !verify_password password user.password_hash then none
    else some user

/-- `_get_user_memberships` (auth.py:359-384): active memberships of the
user, joined (`selectinload`) with their tenant and project rows, which the
foreign keys guarantee to exist. -/
def get_user_memberships (s : Store) (user_id : Uuid) :
    List MembershipWithTenant :=
  (s.memberships.filter (fun m => m.user_id == user_id && m.is_active)).filterMap
    (fun m =>
      match s.getTenant m.tenant_id with
      | none => none
      | some t =>
        match s.getProject t.project_id with
        | none => none
        | some p =>
          some ⟨m.id, m.tenant_id, t.name, t.slug, t.project_id, p.name,
                m.roles, m.is_active⟩)

/-- `_find_project_by_api_key` (auth.py:113-121): linear scan over **all**
projects, first whose stored digest verifies the key. -/
def find_project_by_api_key (s : Store) (api_key : Bytes) : Option Project :=
  s.projects.find? (fun p => verify_api_key api_key p.api_key_hash)

/-- `get_project_by_api_key` (auth.py:52-62). -/
def get_project_by_api_key (s : Store) (api_key : Bytes) : Except Err Project :=
  match find_project_by_api_key s api_key with
  | none => Except.error (Err.unauthorized "Invalid API key")
  | some project =>
    if !project.is_active then Except.error (Err.unauthorized "Project is inactive")
    else Except.ok project

/-- `_generate_tokens` (auth.py:284-318).  `project` is the loaded
`tenant.project` relationship. -/
def generate_tokens (user : User) (tenant : Tenant) (project : Project)
    (membership : Membership) (now : Time) : TokenResponse :=
  let token_data : ClaimMap :=
    [("sub", ClaimVal.uuid user.id),
     ("email", ClaimVal.s user.email),
     ("tenant_id", ClaimVal.uuid tenant.id),
     ("project_id", ClaimVal.uuid tenant.project_id),
     ("roles", ClaimVal.roles membership.roles)]
  let expires_delta : Nat := 60 * project.jwt_expiration_minutes
  let access_token :=
    create_access_token (dictUpdate token_data [("type", ClaimVal.s "access")])
      project.jwt_secret project.jwt_algorithm (some expires_delta) now
  let refresh_token :=
    create_refresh_token token_data project.jwt_secret project.jwt_algorithm now
  ⟨access_token, refresh_token, expires_delta⟩

/-- `login_global` (auth.py:168-184). -/
def login_global (s : Store) (email : String) (password : Bytes) :
    Except Err LoginResponse :=
  match verify_credentials s email password with
  | none => Except.error (Err.unauthorized "Invalid email or password")
  | some user =>
    Except.ok ⟨user.id, user.email, user.full_name, get_user_memberships s user.id⟩

/-- `login_tenant` (auth.py:186-216). -/
def login_tenant (s : Store) (email : String) (password : Bytes)
    (tenant_id : Uuid) (now : Time) : Except Err TokenResponse :=
  match verify_credentials s email password with
  | none => Except.error (Err.unauthorized "Invalid email or password")
  | some user =>
    match s.getMembership user.id tenant_id with
    | none => Except.error (Err.unauthorized "User is not a member of this tenant")
    | some membership =>
      if !membership.is_active then
        Except.error (Err.unauthorized "Membership is inactive")
      else
        match s.getTenant tenant_id with
        | none => Except.error (Err.notFound "Tenant not found")
        | some tenant =>
          if !tenant.is_active then
            Except.error (Err.unauthorized "Tenant is inactive")
          else
            match s.getProject tenant.project_id with
            | none => Except.error (Err.exception "AttributeError")
            | some project =>
              if !project.is_active then
                Except.error (Err.unauthorized "Project is inactive")
              else
                Except.ok (generate_tokens user tenant project membership now)

/-- The probing loop of `refresh_token` (auth.py:250-254): try each
project's secret in order; `if payload: break` stops at the first payload
that is truthy as a Python dict, i.e. decoded and nonempty. -/
def probeProjects (ps : List Project) (tok : Token) (now : Time) :
    Option (Project × ClaimMap) :=
  match ps with
  | [] => none
  | p :: rest =>
    match decode_token tok p.jwt_secret p.jwt_algorithm now with
    | some payload =>
      if payload.isEmpty then probeProjects rest tok now else some (p, payload)
    | none => probeProjects rest tok now

/-- `uuid.UUID(payload[k])`: a missing key raises `KeyError`, a value that
is not a UUID string raises `ValueError`; neither is caught. -/
def claimUuidGet (payload : ClaimMap) (k : String) : Except Err Uuid :=
  match claimGet payload k with
  | none => Except.error (Err.exception "KeyError")
  | some (ClaimVal.uuid v) => Except.ok v
  | some _ => Except.error (Err.exception "ValueError")

/-- The common tail of `refresh_token` (auth.py:256-282): re-validate the
decoded grant and mint fresh tokens. -/
def refresh_revalidate (s : Store) (payload : ClaimMap) (now : Time) :
    Except Err TokenResponse :=
  if claimGet payload "type" != some (ClaimVal.s "refresh") then
    Except.error (Err.unauthorized "Invalid token type")
  else do
    let user_id ← claimUuidGet payload "sub"
    let tenant_id ← claimUuidGet payload "tenant_id"
    match s.getUser user_id with
    | none => Except.error (Err.unauthorized "User not found or inactive")
    | some user =>
      if !user.is_active then
        Except.error (Err.unauthorized "User not found or inactive")
      else
        match s.getMembership user_id tenant_id with
        | none => Except.error (Err.unauthorized "Membership not found or inactive")
        | some membership =>
          if !membership.is_active then
            Except.error (Err.unauthorized "Membership not found or inactive")
          else
            match s.getTenant tenant_id with
            | none => Except.error (Err.unauthorized "Tenant or project inactive")
            | some tenant =>
              if !tenant.is_active then
                Except.error (Err.unauthorized "Tenant or project inactive")
              else
                match s.getProject tenant.project_id with
                | none => Except.error (Err.exception "AttributeError")
                | some project =>
                  if !project.is_active then
                    Except.error (Err.unauthorized "Tenant or project inactive")
                  else
                    Except.ok (generate_tokens user tenant project membership now)

/-- `refresh_token` (auth.py:218-282).  With an API key, the decode secret
is pinned to that project; without one, every **active** project is probed
in order. -/
def refresh_token (s : Store) (tok : Token) (api_key : Option Bytes)
    (now : Time) : Except Err TokenResponse :=
  match api_key with
  | some key =>
    match find_project_by_api_key s key with
    | none => Except.error (Err.unauthorized "Invalid API key")
    | some project =>
      match decode_token tok project.jwt_secret project.jwt_algorithm now with
      | none => Except.error (Err.unauthorized "Invalid or expired refresh token")
      | some payload =>
        if payload.isEmpty then
          Except.error (Err.unauthorized "Invalid or expired refresh token")
        else
          refresh_revalidate s payload now
  | none =>
    match probeProjects (s.projects.filter (fun p => p.is_active)) tok now with
    | none => Except.error (Err.unauthorized "Invalid or expired refresh token")
    | some (_, payload) => refresh_revalidate s payload now

end AuthService

/-! ## Project service — `app/services/project.py` -/

/-- `ProjectCreate` (app/schemas/project.py). -/
structure ProjectCreateData where
  name : String
  tenant_strategy : String := "schema"
  deriving DecidableEq, Repr

/-- The plain-text credentials dict returned once by `ProjectService.create`
(project.py:57-62). -/
structure ProjectCredentials where
  api_key : Bytes
  client_id : String
  client_secret : Bytes
  jwt_secret : Bytes
  deriving DecidableEq, Repr

namespace ProjectService

/-- `get_by_slug` (project.py:73-78). -/
def get_by_slug (s : Store) (slug : String) : Option Project :=
  s.projects.find? (fun p => p.slug == slug)

/-- `ProjectService.create` (project.py:24-64).  The external `slugify`
library, the generated credentials (`generate_api_key` etc.), the bcrypt
salts and the random slug suffix (`uuid4().hex[:8]`) are parameters.  Note
lines 47 and 49 hash the API key and the client secret with
`hash_password` (bcrypt), not `hash_secret`. -/
def create (s : Store) (data : ProjectCreateData) (slugify : String → String)
    (api_key : Bytes) (client_id : String) (client_secret : Bytes)
    (jwt_secret : Bytes) (salt1 salt2 : Nat) (suffix : String)
    (newId : Uuid) : Store × Project × ProjectCredentials :=
  let slug0 := slugify data.name
  let slug :=
    match get_by_slug s slug0 with
    | some _ => slug0 ++ "-" ++ suffix
    | none => slug0
  let project : Project :=
    { id := newId
      name := data.name
      slug := slug
      tenant_strategy := data.tenant_strategy
      api_key_hash := hash_password api_key salt1
      client_id := client_id
      client_secret_hash := hash_password client_secret salt2
      jwt_secret := jwt_secret }
  ({ s with projects := s.projects ++ [project] }, project,
   ⟨api_key, client_id, client_secret, jwt_secret⟩)

/-- `regenerate_api_key` (project.py:128-141): also stores the new key's
digest via `hash_password` (line 138). -/
def regenerate_api_key (s : Store) (project_id : Uuid) (new_api_key : Bytes)
    (salt : Nat) : Except Err (Store × Bytes) :=
  match s.getProject project_id with
  | none => Except.error (Err.notFound "Project not found")
  | some _ =>
    Except.ok
      ({ s with projects :=
          s.projects.map (fun p =>
            if p.id == project_id then
              { p with api_key_hash := hash_password new_api_key salt }
            else p) },
       new_api_key)

end ProjectService

/-! ## Membership service — `app/services/membership.py` -/

/-- `MembershipCreate` (app/schemas/membership.py). -/
structure MembershipCreateData where
  user_id : Uuid
  tenant_id : Uuid
  roles : List String := []
  deriving DecidableEq, Repr

/-- `MembershipUpdate` (app/schemas/membership.py); `none` is an unset
field, skipped by `model_dump(exclude_unset=True)`. -/
structure MembershipUpdateData where
  roles : Option (List String) := none
  is_active : Option Bool := none
  deriving DecidableEq, Repr

/-- `InvitationCreate` (app/schemas/membership.py); the schema constrains
`expires_in_hours` to 1..168, defaulting to 48. -/
structure InvitationCreateData where
  email : String
  roles : List String := []
  expires_in_hours : Nat := 48
  deriving DecidableEq, Repr

namespace MembershipService

/-- `get_by_user_and_tenant` (membership.py:37-47). -/
def get_by_user_and_tenant (s : Store) (user_id tenant_id : Uuid) :
    Option Membership :=
  s.getMembership user_id tenant_id

/-- `MembershipService.create` (membership.py:91-117): explicit duplicate
check first, then user and tenant existence, then insert. -/
def create (s : Store) (data : MembershipCreateData) (newId : Uuid) :
    Except Err (Store × Membership) :=
  match get_by_user_and_tenant s data.user_id data.tenant_id with
  | some _ => Except.error (Err.badRequest "User is already a member of this tenant")
  | none =>
    match s.getUser data.user_id with
    | none => Except.error (Err.notFound "User not found")
    | some _ =>
      match s.getTenant data.tenant_id with
      | none => Except.error (Err.notFound "Tenant not found")
      | some _ =>
        let m : Membership :=
          { id := newId
            user_id := data.user_id
            tenant_id := data.tenant_id
            roles := data.roles }
        (s.insertMembership m).map (fun s' => (s', m))

/-- The `setattr` loop of `MembershipService.update` (membership.py:127-129)
applied to one row. -/
def applyMembershipUpdate (data : MembershipUpdateData) (m : Membership) :
    Membership :=
  let m1 := match data.roles with
    | some r => { m with roles := r }
    | none => m
  match data.is_active with
  | some a => { m1 with is_active := a }
  | none => m1

/-- `MembershipService.update` (membership.py:119-133). -/
def update (s : Store) (membership_id : Uuid) (data : MembershipUpdateData) :
    Except Err (Store × Membership) :=
  match s.memberships.find? (fun m => m.id == membership_id) with
  | none => Except.error (Err.notFound "Membership not found")
  | some m =>
    Except.ok
      ({ s with memberships :=
          s.memberships.map (fun x =>
            if x.id == membership_id then applyMembershipUpdate data x else x) },
       applyMembershipUpdate data m)

/-- `MembershipService.delete` (membership.py:135-142): removes the found
row (the primary key is unique). -/
def delete (s : Store) (membership_id : Uuid) : Except Err Store :=
  match s.memberships.find? (fun m => m.id == membership_id) with
  | none => Except.error (Err.notFound "Membership not found")
  | some _ =>
    Except.ok { s with memberships :=
      s.memberships.eraseP (fun m => m.id == membership_id) }

/-- `get_invitation_by_token` (membership.py:155-162). -/
def get_invitation_by_token (s : Store) (token : String) : Option Invitation :=
  s.invitations.find? (fun inv => inv.token == token)

/-- `get_pending_invitation` (membership.py:164-175): filters on the email
(stored lowercased, compared against `email.lower()`), the tenant, and
**only** `used_at IS NULL` — expiry is not part of the filter. -/
def get_pending_invitation (s : Store) (email : String) (tenant_id : Uuid) :
    Option Invitation :=
  s.invitations.find? (fun inv =>
    inv.email == pyLower email && inv.tenant_id == tenant_id && inv.used_at.isNone)

/-- `create_invitation` (membership.py:193-224). -/
def create_invitation (s : Store) (tenant_id : Uuid) (data : InvitationCreateData)
    (now : Time) (newId : Uuid) (newToken : String) :
    Except Err (Store × Invitation) :=
  match s.getTenant tenant_id with
  | none => Except.error (Err.notFound "Tenant not found")
  | some _ =>
    let memberConflict :=
      match s.getUserByEmail data.email with
      | some user => (get_by_user_and_tenant s user.id tenant_id).isSome
      | none => false
    if memberConflict then
      Except.error (Err.badRequest "User is already a member of this tenant")
    else if (get_pending_invitation s data.email tenant_id).isSome then
      Except.error (Err.badRequest "An invitation already exists for this email")
    else
      let inv : Invitation :=
        { id := newId
          email := pyLower data.email
          tenant_id := tenant_id
          roles := data.roles
          token := newToken
          expires_at := now + 3600 * data.expires_in_hours }
      Except.ok ({ s with invitations := s.invitations ++ [inv] }, inv)

/-- The user-resolution step of `accept_invitation` (membership.py:249-265):
reuse the user with the invitation's email, or create one, requiring a
truthy (non-`None`, nonempty) password and full name.  The `Bool` records
whether the user is new. -/
def resolveInvitedUser (s : Store) (invitation : Invitation)
    (password : Option Bytes) (full_name : Option String)
    (newUserId : Uuid) (salt : Nat) : Except Err (User × Bool) :=
  match s.getUserByEmail invitation.email with
  | some user => Except.ok (user, false)
  | none =>
    match password with
    | none => Except.error (Err.badRequest "Password is required for new users")
    | some pw =>
      if pw.isEmpty then
        Except.error (Err.badRequest "Password is required for new users")
      else
        match full_name with
        | none => Except.error (Err.badRequest "Full name is required for new users")
        | some fn =>
          if fn.isEmpty then
            Except.error (Err.badRequest "Full name is required for new users")
          else
            Except.ok
              ({ id := newUserId
                 email := invitation.email
                 password_hash := hash_password pw salt
                 full_name := some fn
                 email_verified := true }, true)

/-- `accept_invitation` (membership.py:226-282).  User insertion, membership
insertion and marking the invitation used commit as one transaction: the
next store is returned only when the whole sequence succeeds, and the
membership insert enforces the table's unique constraint. -/
def accept_invitation (s : Store) (token : String) (password : Option Bytes)
    (full_name : Option String) (now : Time) (newUserId newMemId : Uuid)
    (salt : Nat) : Except Err (Store × User × Membership) :=
  match get_invitation_by_token s token with
  | none => Except.error (Err.notFound "Invitation not found")
  | some invitation =>
    if invitation.is_used then
      Except.error (Err.badRequest "Invitation has already been used")
    else if invitation.is_expired now then
      Except.error (Err.badRequest "Invitation has expired")
    else
      match resolveInvitedUser s invitation password full_name newUserId salt with
      | Except.error e => Except.error e
      | Except.ok (user, isNew) =>
        let s1 := if isNew then { s with users := s.users ++ [user] } else s
        let membership : Membership :=
          { id := newMemId
            user_id := user.id
            tenant_id := invitation.tenant_id
            roles := invitation.roles }
        match s1.insertMembership membership with
        | Except.error e => Except.error e
        | Except.ok s2 =>
          Except.ok
            ({ s2 with invitations :=
                s2.invitations.map (fun i =>
                  if i.id == invitation.id then { i with used_at := some now } else i) },
             user, membership)

end MembershipService

/-- One membership-engine operation, for stating the cross-operation
uniqueness invariant; each constructor carries the randomness its service
call consumes. -/
inductive MOp where
  | create (data : MembershipCreateData) (newId : Uuid)
  | accept (token : String) (password : Option Bytes) (full_name : Option String)
      (now : Time) (newUserId newMemId : Uuid) (salt : Nat)
  | update (membership_id : Uuid) (data : MembershipUpdateData)
  | delete (membership_id : Uuid)

/-- Run one operation against the store; a raised error rolls the
transaction back, leaving the store unchanged. -/
def MOp.step (s : Store) (op : MOp) : Store :=
  match op with
  | MOp.create data newId =>
    match MembershipService.create s data newId with
    | Except.ok (s', _) => s'
    | Except.error _ => s
  | MOp.accept tok pw fn now uid mid salt =>
    match MembershipService.accept_invitation s tok pw fn now uid mid salt with
    | Except.ok (s', _, _) => s'
    | Except.error _ => s
  | MOp.update mid data =>
    match MembershipService.update s mid data with
    | Except.ok (s', _) => s'
    | Except.error _ => s
  | MOp.delete mid =>
    match MembershipService.delete s mid with
    | Except.ok s' => s'
    | Except.error _ => s

/-! ## Claim-map lemmas -/

theorem claimGet_claimSet (m : ClaimMap) (k k' : String) (v : ClaimVal) :
    claimGet (claimSet m k v) k' = if k' = k then some v else claimGet m k' := by
  induction m with
  | nil =>
    by_cases h : k' = k
    · subst h; simp [claimSet, claimGet, List.find?]
    · have hb : (k == k') = false := beq_eq_false_iff_ne.mpr fun hh => h hh.symm
      simp [claimSet, claimGet, List.find?, h, hb]
  | cons a l ih =>
    by_cases hak : a.1 = k
    · have hb : (a.1 == k) = true := beq_iff_eq.mpr hak
      by_cases h : k' = k
      · subst h
        simp [claimSet, claimGet, List.find?, hb]
      · have hb2 : (k == k') = false := beq_eq_false_iff_ne.mpr fun hh => h hh.symm
        have hb3 : (a.1 == k') = false := by rw [hak]; exact hb2
        simp [claimSet, claimGet, List.find?, hb, hb2, hb3, h]
    · have hb : (a.1 == k) = false := beq_eq_false_iff_ne.mpr hak
      by_cases hak' : a.1 = k'
      · have hb2 : (a.1 == k') = true := beq_iff_eq.mpr hak'
        have h : ¬ k' = k := fun hh => hak (hak'.trans hh)
        simp [claimSet, claimGet, List.find?, hb, hb2, h]
      · have hb2 : (a.1 == k') = false := beq_eq_false_iff_ne.mpr hak'
        by_cases h : k' = k
        · subst h
          simp only [if_pos rfl] at ih
          simpa [claimSet, claimGet, List.find?, hb, hb2] using ih
        · simp only [if_neg h] at ih
          simpa [claimSet, claimGet, List.find?, hb, hb2, h] using ih

/-! ## C10 — password truncation boundary -/

/-- **C10**: `hash_password` truncates to bcrypt's 72-byte limit before
hashing, `verify_password` applies the same truncation, so a stored digest
verifies both the original password and its 72-byte prefix, and an
over-long password hashes identically to its truncated prefix. -/
theorem c10_password_truncation (p : Bytes) (salt : Nat) :
    verify_password p (hash_password p salt) = true
    ∧ verify_password (p.take 72) (hash_password p salt) = true
    ∧ (72 < p.length → hash_password p salt = hash_password (p.take 72) salt) := by
  refine ⟨?_, ?_, fun _ => ?_⟩ <;>
    simp [verify_password, hash_password, List.take_take]

/-- Witness for C10 at a concrete 73-byte password. -/
theorem c10_password_truncation_witness :
    hash_password (List.replicate 73 0) 1
      = hash_password ((List.replicate 73 0).take 72) 1 :=
  (c10_password_truncation (List.replicate 73 0) 1).2.2 (by decide)

/-! ## C1 — API-key round-trip -/

/-- The store produced by creating one project through
`ProjectService.create` from an empty database, with concrete generated
credentials (`api_key = [1, 2, 3]`). -/
def c1Created : Store × Project × ProjectCredentials :=
  ProjectService.create {} ⟨"Acme", "schema"⟩ (fun n => n) [1, 2, 3] "cid" [4, 5]
    [9] 11 12 "sfx" 1

/-- A project whose API-key digest was written by the admin panel
(`hash_secret`, admin/routes.py:328) — the shape `verify_secret` expects. -/
def c1AdminProject : Project :=
  { id := 5
    name := "P"
    slug := "p"
    tenant_strategy := "schema"
    api_key_hash := hash_secret [7]
    client_id := "c"
    client_secret_hash := hash_secret [6]
    jwt_secret := [8] }

def c1AdminStore : Store := { projects := [c1AdminProject] }

/-- The store after `ProjectService.regenerate_api_key` replaces that
digest with a bcrypt one (project.py:138), new plain key `[8, 9]`. -/
def c1Regenerated : Store :=
  match ProjectService.regenerate_api_key c1AdminStore 5 [8, 9] 3 with
  | Except.ok (s', _) => s'
  | Except.error _ => c1AdminStore

/-- **C1** fails on the code: `ProjectService.create` (and
`regenerate_api_key`) store `hash_password(api_key)` — a bcrypt digest —
while `_find_project_by_api_key` verifies with `verify_secret`, which
recomputes a SHA-256 digest and compares for equality.  A SHA-256 hex
digest is never equal to a bcrypt digest, so the issued key never
authenticates: the claimed round-trip never holds for a service-created
project.  Conjuncts: the digest mismatch in general; the freshly created
project's own key resolves to no project and `get_project_by_api_key`
answers Unauthorized; an admin-created (sha256-hashed) key does work until
`regenerate_api_key` replaces its digest, after which the new key fails. -/
theorem c1_api_key_roundtrip_broken :
    (∀ (key : Bytes) (salt : Nat), verify_secret key (hash_password key salt) = false)
    ∧ AuthService.find_project_by_api_key c1Created.1 c1Created.2.2.api_key = none
    ∧ AuthService.get_project_by_api_key c1Created.1 c1Created.2.2.api_key
        = Except.error (Err.unauthorized "Invalid API key")
    ∧ AuthService.find_project_by_api_key c1AdminStore [7] = some c1AdminProject
    ∧ AuthService.find_project_by_api_key c1Regenerated [8, 9] = none := by
  refine ⟨fun key salt => ?_, by decide, by rfl, by decide, by decide⟩
  simp [verify_secret, hash_secret, hash_password]

/-! ## C8 — decode is total and null-on-failure -/

/-- **C8**: `decode_token` returns `none` rather than raising on every
failure: malformed tokens, tokens signed under a different secret (for any
algorithm, whether produced by `create_access_token` or
`create_refresh_token`), a mismatched algorithm, and an expiry in the
past. -/
theorem c8_decode_null_on_failure (sec : Bytes) (alg : String) (now : Time) :
    (∀ str, decode_token (Token.malformed str) sec alg now = none)
    ∧ (∀ (m : ClaimMap) (s1 : Bytes) (a : String) (ttl : Option Nat) (t0 : Time),
        s1 ≠ sec → decode_token (create_access_token m s1 a ttl t0) sec alg now = none)
    ∧ (∀ (m : ClaimMap) (s1 : Bytes) (a : String) (t0 : Time),
        s1 ≠ sec → decode_token (create_refresh_token m s1 a t0) sec alg now = none)
    ∧ (∀ j : Jwt, j.alg ≠ alg → decode_token (Token.jwt j) sec alg now = none)
    ∧ (∀ (j : Jwt) (e : Nat), claimGet j.payload "exp" = some (ClaimVal.n e) →
        e < now → decode_token (Token.jwt j) sec alg now = none) := by
  refine ⟨fun str => rfl, fun m s1 a ttl t0 h => ?_, fun m s1 a t0 h => ?_,
          fun j h => ?_, fun j e he hlt => ?_⟩
  · simp [create_access_token, decode_token, h]
  · simp [create_refresh_token, decode_token, h]
  · simp [decode_token, h]
  · simp [decode_token, he, hlt]

/-- Witness for C8: a token signed under secret `[1]` decoded under `[2]`. -/
theorem c8_decode_null_on_failure_witness :
    decode_token (create_access_token [] [1] "HS256" (some 60) 0) [2] "HS256" 0 = none :=
  (c8_decode_null_on_failure [2] "HS256" 0).2.1 [] [1] "HS256" (some 60) 0 (by decide)

/-! ## C7 — token-codec round-trip -/

/-- **C7** fails on the code at `ttl = 0`: a zero `timedelta` is falsy in
Python, so `create_access_token` silently falls back to the settings
default of 30 minutes (security.py:67-70).  Encoding with `ttl = 0` at
`now = 100` and decoding at `t = 101 > now + ttl` does not return null —
it returns the claims with `exp = 1900`, not `exp = now + ttl = 100`. -/
theorem c7_round_trip_counterexample :
    100 + 0 < 101
    ∧ decode_token (create_access_token [("a", ClaimVal.n 1)] [7] "HS256" (some 0) 100)
        [7] "HS256" 101
      = some [("a", ClaimVal.n 1), ("exp", ClaimVal.n 1900), ("iat", ClaimVal.n 100)] := by
  decide

/-- **C7 amended**: for every *positive* ttl, decoding under the same
secret and algorithm at any time up to `now + ttl` returns exactly the
input claims updated with `exp = now + ttl` and `iat = now`, and decoding
strictly after `now + ttl` returns null. -/
theorem c7_round_trip (m : ClaimMap) (secret : Bytes) (alg : String) (ttl : Nat)
    (now t : Time) (httl : 0 < ttl) :
    (t ≤ now + ttl →
      decode_token (create_access_token m secret alg (some ttl) now) secret alg t
        = some (dictUpdate m [("exp", ClaimVal.n (now + ttl)), ("iat", ClaimVal.n now)]))
    ∧ (now + ttl < t →
      decode_token (create_access_token m secret alg (some ttl) now) secret alg t
        = none) := by
  have hne : ttl ≠ 0 := Nat.pos_iff_ne_zero.mp httl
  have hexp :
      claimGet (dictUpdate m [("exp", ClaimVal.n (now + ttl)), ("iat", ClaimVal.n now)])
        "exp" = some (ClaimVal.n (now + ttl)) := by
    simp [dictUpdate, claimGet_claimSet]
  constructor
  · intro ht
    have hnt : ¬ (now + ttl < t) := Nat.not_lt.mpr ht
    simp [create_access_token, decode_token, hne, hexp, hnt]
  · intro ht
    simp [create_access_token, decode_token, hne, hexp, ht]

/-- Witness for C7 at a concrete claim map, times and ttl. -/
theorem c7_round_trip_witness :
    decode_token (create_access_token [("a", ClaimVal.n 1)] [7] "HS256" (some 60) 100)
      [7] "HS256" 120
      = some (dictUpdate [("a", ClaimVal.n 1)]
          [("exp", ClaimVal.n 160), ("iat", ClaimVal.n 100)]) :=
  (c7_round_trip [("a", ClaimVal.n 1)] [7] "HS256" 60 100 120 (by decide)).1 (by decide)

/-! ## C2 — authentication-failure indistinguishability -/

/-- A store with one active user (password bytes `[1]`), one active tenant
`10` under active project `20`, and no membership. -/
def c2StoreNoMem : Store :=
  { projects := [{ id := 20, name := "P", slug := "p", tenant_strategy := "schema",
                   api_key_hash := hash_secret [3], client_id := "c",
                   client_secret_hash := hash_secret [4], jwt_secret := [5] }]
    tenants := [{ id := 10, project_id := 20, name := "T", slug := "t" }]
    users := [{ id := 1, email := "alice@x.com", password_hash := hash_password [1] 0 }] }

/-- The same store with an **inactive** membership of user `1` in tenant
`10`. -/
def c2StoreInactiveMem : Store :=
  { c2StoreNoMem with
    memberships := [{ id := 30, user_id := 1, tenant_id := 10, is_active := false }] }

/-- **C2** fails on the code: two `login_tenant` runs that fail
authentication for different internal causes — no membership versus an
inactive membership, both with correct credentials — produce Unauthorized
errors with *different* messages (auth.py:198 and auth.py:200), revealing
which entity in the chain failed.  (Inactive tenant and inactive project
likewise get their own messages, auth.py:207/209.) -/
theorem c2_login_failure_counterexample :
    AuthService.login_tenant c2StoreNoMem "alice@x.com" [1] 10 0
      = Except.error (Err.unauthorized "User is not a member of this tenant")
    ∧ AuthService.login_tenant c2StoreInactiveMem "alice@x.com" [1] 10 0
      = Except.error (Err.unauthorized "Membership is inactive")
    ∧ "User is not a member of this tenant" ≠ "Membership is inactive" := by
  exact ⟨rfl, rfl, by decide⟩

/-- **C2 amended**: the three *credential* failure causes — user not
found, inactive user, wrong password — are genuinely indistinguishable:
all make `_verify_credentials` return `none`, upon which both `login_global`
and `login_tenant` fail Unauthorized with the identical message
"Invalid email or password".  Failures later in the chain (membership,
tenant, project) also raise Unauthorized but with cause-specific
messages. -/
theorem c2_credential_failures_indistinguishable (s : Store) (email : String)
    (password : Bytes) (tenant_id : Uuid) (now : Time) :
    (s.getUserByEmail email = none →
      AuthService.verify_credentials s email password = none)
    ∧ (∀ u, s.getUserByEmail email = some u → u.is_active = false →
        AuthService.verify_credentials s email password = none)
    ∧ (∀ u, s.getUserByEmail email = some u →
        verify_password password u.password_hash = false →
        AuthService.verify_credentials s email password = none)
    ∧ (AuthService.verify_credentials s email password = none →
        AuthService.login_global s email password
          = Except.error (Err.unauthorized "Invalid email or password")
        ∧ AuthService.login_tenant s email password tenant_id now
          = Except.error (Err.unauthorized "Invalid email or password")) := by
  refine ⟨?_, ?_, ?_, ?_⟩
  · intro h
    simp [AuthService.verify_credentials, h]
  · intro u hu hia
    simp [AuthService.verify_credentials, hu, hia]
  · intro u hu hpw
    by_cases hia : u.is_active <;>
      simp [AuthService.verify_credentials, hu, hia, hpw]
  · intro h
    exact ⟨by simp [AuthService.login_global, h],
           by simp [AuthService.login_tenant, h]⟩

/-- Witness for C2 (amended) on the empty store, where the user is
missing. -/
theorem c2_credential_failures_witness :
    AuthService.login_global {} "a@x.com" [1]
      = Except.error (Err.unauthorized "Invalid email or password") :=
  have h := c2_credential_failures_indistinguishable {} "a@x.com" [1] 0 0
  (h.2.2.2 (h.1 rfl)).1

/-! ## C4 — loginTenant token contract -/

/-- **C4**: on a fully successful `login_tenant`, both minted tokens are
signed with the owning project's `jwt_secret` and `jwt_algorithm`; their
payloads carry `sub` (user id), `email`, `tenant_id`, `project_id`, and
`roles` taken from the membership; the access token expires at
`now + 60 * jwt_expiration_minutes` (and `expires_in` equals that
lifetime in seconds), while the refresh token expires a fixed 7 days after
`now` regardless of project configuration. -/
theorem c4_login_tenant_token_contract (s : Store) (email : String)
    (password : Bytes) (tenant_id : Uuid) (now : Time)
    (user : User) (membership : Membership) (tenant : Tenant) (project : Project)
    (hu : AuthService.verify_credentials s email password = some user)
    (hm : s.getMembership user.id tenant_id = some membership)
    (hma : membership.is_active = true)
    (ht : s.getTenant tenant_id = some tenant)
    (hta : tenant.is_active = true)
    (hp : s.getProject tenant.project_id = some project)
    (hpa : project.is_active = true)
    (hmin : 0 < project.jwt_expiration_minutes) :
    AuthService.login_tenant s email password tenant_id now =
      Except.ok
        { access_token := Token.jwt
            ⟨[("sub", ClaimVal.uuid user.id),
              ("email", ClaimVal.s user.email),
              ("tenant_id", ClaimVal.uuid tenant.id),
              ("project_id", ClaimVal.uuid tenant.project_id),
              ("roles", ClaimVal.roles membership.roles),
              ("type", ClaimVal.s "access"),
              ("exp", ClaimVal.n (now + 60 * project.jwt_expiration_minutes)),
              ("iat", ClaimVal.n now)],
             project.jwt_secret, project.jwt_algorithm⟩
          refresh_token := Token.jwt
            ⟨[("sub", ClaimVal.uuid user.id),
              ("email", ClaimVal.s user.email),
              ("tenant_id", ClaimVal.uuid tenant.id),
              ("project_id", ClaimVal.uuid tenant.project_id),
              ("roles", ClaimVal.roles membership.roles),
              ("exp", ClaimVal.n (now + 7 * 24 * 60 * 60)),
              ("iat", ClaimVal.n now),
              ("type", ClaimVal.s "refresh")],
             project.jwt_secret, project.jwt_algorithm⟩
          expires_in := 60 * project.jwt_expiration_minutes } := by
  have hmin' : 60 * project.jwt_expiration_minutes ≠ 0 :=
    Nat.mul_ne_zero (by decide) (Nat.pos_iff_ne_zero.mp hmin)
  simp [AuthService.login_tenant, AuthService.generate_tokens,
        create_access_token, create_refresh_token, dictUpdate, claimSet,
        hu, hm, hma, ht, hta, hp, hpa, hmin']

/-- A concrete one-user, one-tenant, one-membership store for the C4
witness. -/
def c4Store : Store :=
  { projects := [{ id := 20, name := "P", slug := "p", tenant_strategy := "schema",
                   api_key_hash := hash_secret [3], client_id := "c",
                   client_secret_hash := hash_secret [4], jwt_secret := [5],
                   jwt_algorithm := "HS384", jwt_expiration_minutes := 15 }]
    tenants := [{ id := 10, project_id := 20, name := "T", slug := "t" }]
    users := [{ id := 1, email := "alice@x.com", password_hash := hash_password [1] 0 }]
    memberships := [{ id := 30, user_id := 1, tenant_id := 10, roles := ["admin"] }] }

/-- Witness for C4 at the concrete store. -/
theorem c4_login_tenant_token_contract_witness :
    AuthService.login_tenant c4Store "alice@x.com" [1] 10 100 =
      Except.ok
        { access_token := Token.jwt
            ⟨[("sub", ClaimVal.uuid 1), ("email", ClaimVal.s "alice@x.com"),
              ("tenant_id", ClaimVal.uuid 10), ("project_id", ClaimVal.uuid 20),
              ("roles", ClaimVal.roles ["admin"]), ("type", ClaimVal.s "access"),
              ("exp", ClaimVal.n (100 + 60 * 15)), ("iat", ClaimVal.n 100)],
             [5], "HS384"⟩
          refresh_token := Token.jwt
            ⟨[("sub", ClaimVal.uuid 1), ("email", ClaimVal.s "alice@x.com"),
              ("tenant_id", ClaimVal.uuid 10), ("project_id", ClaimVal.uuid 20),
              ("roles", ClaimVal.roles ["admin"]),
              ("exp", ClaimVal.n (100 + 7 * 24 * 60 * 60)), ("iat", ClaimVal.n 100),
              ("type", ClaimVal.s "refresh")],
             [5], "HS384"⟩
          expires_in := 60 * 15 } :=
  c4_login_tenant_token_contract c4Store "alice@x.com" [1] 10 100
    { id := 1, email := "alice@x.com", password_hash := hash_password [1] 0 }
    { id := 30, user_id := 1, tenant_id := 10, roles := ["admin"] }
    { id := 10, project_id := 20, name := "T", slug := "t" }
    { id := 20, name := "P", slug := "p", tenant_strategy := "schema",
      api_key_hash := hash_secret [3], client_id := "c",
      client_secret_hash := hash_secret [4], jwt_secret := [5],
      jwt_algorithm := "HS384", jwt_expiration_minutes := 15 }
    (by decide) (by decide) (by decide) (by decide) (by decide) (by decide)
    (by decide) (by decide)

/-! ## C6 — createInvitation preconditions -/

/-- Tenant `10` with one **expired, unused** invitation for `e@x.com`. -/
def c6StoreExpiredInvite : Store :=
  { tenants := [{ id := 10, project_id := 20, name := "T", slug := "t" }]
    invitations := [{ id := 40, email := "e@x.com", tenant_id := 10,
                      token := "tk", expires_at := 5 }] }

/-- Tenant `10` where `e@x.com` has an **inactive** membership. -/
def c6StoreInactiveMem : Store :=
  { tenants := [{ id := 10, project_id := 20, name := "T", slug := "t" }]
    users := [{ id := 1, email := "e@x.com", password_hash := hash_password [1] 0 }]
    memberships := [{ id := 30, user_id := 1, tenant_id := 10, is_active := false }] }

/-- **C6** fails on the code in two places.  `get_pending_invitation`
filters only on `used_at IS NULL` (membership.py:168-175), so an unused but
**expired** invitation still blocks a new one, contrary to the claim's
"unused-and-unexpired … an invitation that is unused but already expired
does not block".  And the membership check (membership.py:203-207) tests
bare existence, so an **inactive** membership also blocks, contrary to
"active Membership". -/
theorem c6_create_invitation_counterexample :
    ((c6StoreExpiredInvite.invitations.head?).map
        (fun i => (i.is_expired 100, i.is_used)) = some (true, false)
      ∧ MembershipService.create_invitation c6StoreExpiredInvite 10
          ⟨"e@x.com", [], 48⟩ 100 41 "tk2"
        = Except.error (Err.badRequest "An invitation already exists for this email"))
    ∧ ((c6StoreInactiveMem.memberships.head?).map (fun m => m.is_active)
        = some false
      ∧ MembershipService.create_invitation c6StoreInactiveMem 10
          ⟨"e@x.com", [], 48⟩ 100 41 "tk2"
        = Except.error (Err.badRequest "User is already a member of this tenant")) :=
  ⟨⟨by decide, by rfl⟩, ⟨by decide, by rfl⟩⟩

/-- **C6 amended**: `create_invitation` fails NotFound when the tenant is
absent; fails BadRequest when the email resolves to **any** membership on
the tenant, active or not; fails BadRequest exactly when an **unused**
invitation — expired or not — exists for the (email, tenant) pair; and
otherwise succeeds, appending the new invitation with the invitation
fields written by the code. -/
theorem c6_create_invitation_behavior (s : Store) (tenant_id : Uuid)
    (data : InvitationCreateData) (now : Time) (newId : Uuid) (newToken : String) :
    (s.getTenant tenant_id = none →
      MembershipService.create_invitation s tenant_id data now newId newToken
        = Except.error (Err.notFound "Tenant not found"))
    ∧ (∀ tenant user m, s.getTenant tenant_id = some tenant →
        s.getUserByEmail data.email = some user →
        s.getMembership user.id tenant_id = some m →
        MembershipService.create_invitation s tenant_id data now newId newToken
          = Except.error (Err.badRequest "User is already a member of this tenant"))
    ∧ (∀ inv, MembershipService.get_pending_invitation s data.email tenant_id
          = some inv → inv.used_at = none)
    ∧ (∀ tenant inv, s.getTenant tenant_id = some tenant →
        (∀ user, s.getUserByEmail data.email = some user →
          s.getMembership user.id tenant_id = none) →
        MembershipService.get_pending_invitation s data.email tenant_id = some inv →
        MembershipService.create_invitation s tenant_id data now newId newToken
          = Except.error (Err.badRequest "An invitation already exists for this email"))
    ∧ (∀ tenant, s.getTenant tenant_id = some tenant →
        (∀ user, s.getUserByEmail data.email = some user →
          s.getMembership user.id tenant_id = none) →
        MembershipService.get_pending_invitation s data.email tenant_id = none →
        MembershipService.create_invitation s tenant_id data now newId newToken
          = Except.ok
              ({ s with invitations := s.invitations ++
                  [{ id := newId
                     email := pyLower data.email
                     tenant_id := tenant_id
                     roles := data.roles
                     token := newToken
                     expires_at := now + 3600 * data.expires_in_hours }] },
               { id := newId
                 email := pyLower data.email
                 tenant_id := tenant_id
                 roles := data.roles
                 token := newToken
                 expires_at := now + 3600 * data.expires_in_hours })) := by
  refine ⟨?_, ?_, ?_, ?_, ?_⟩
  · intro h
    simp [MembershipService.create_invitation, h]
  · intro tenant user m ht hu hm
    simp [MembershipService.create_invitation, MembershipService.get_by_user_and_tenant,
          ht, hu, hm]
  · intro inv hinv
    have := List.find?_some hinv
    simp only [Bool.and_eq_true] at this
    exact Option.isNone_iff_eq_none.mp (by simpa using this.2)
  · intro tenant inv ht hmem hpend
    cases hu : s.getUserByEmail data.email with
    | none =>
      simp [MembershipService.create_invitation, ht, hu, hpend]
    | some user =>
      simp [MembershipService.create_invitation, MembershipService.get_by_user_and_tenant,
            ht, hu, hmem user hu, hpend]
  · intro tenant ht hmem hpend
    cases hu : s.getUserByEmail data.email with
    | none =>
      simp [MembershipService.create_invitation, ht, hu, hpend]
    | some user =>
      simp [MembershipService.create_invitation, MembershipService.get_by_user_and_tenant,
            ht, hu, hmem user hu, hpend]

/-- A store with only tenant `10`, for the C6 witness. -/
def c6WitnessStore : Store :=
  { tenants := [{ id := 10, project_id := 20, name := "T", slug := "t" }] }

/-- Witness for C6 (amended): creating an invitation in a store with no
user, no membership and no prior invitation succeeds. -/
theorem c6_create_invitation_witness :
    MembershipService.create_invitation c6WitnessStore 10 ⟨"e@x.com", ["member"], 48⟩
        100 41 "tk"
      = Except.ok
          ({ c6WitnessStore with invitations :=
              [{ id := 41, email := pyLower "e@x.com", tenant_id := 10,
                 roles := ["member"], token := "tk", expires_at := 100 + 3600 * 48 }] },
           { id := 41, email := pyLower "e@x.com", tenant_id := 10,
             roles := ["member"], token := "tk", expires_at := 100 + 3600 * 48 }) := by
  have h := (c6_create_invitation_behavior c6WitnessStore 10 ⟨"e@x.com", ["member"], 48⟩
    100 41 "tk").2.2.2.2
  have := h { id := 10, project_id := 20, name := "T", slug := "t" } (by decide)
    (fun user hu => by
      rw [show c6WitnessStore.getUserByEmail "e@x.com" = none from by decide] at hu
      exact Option.noConfusion hu)
    (by decide)
  simpa [c6WitnessStore] using this

/-! ## C5 — acceptInvitation failure modes and replay safety -/

/-- Marking one invitation used does not change any token, so the lookup
by token finds the marked row. -/
theorem find?_token_mark_used (l : List Invitation) (token : String)
    (inv : Invitation) (now : Time)
    (h : l.find? (fun i => i.token == token) = some inv) :
    (l.map (fun i => if i.id == inv.id then { i with used_at := some now } else i)).find?
        (fun i => i.token == token)
      = some { inv with used_at := some now } := by
  rw [List.find?_map]
  have hcomp :
      ((fun i : Invitation => i.token == token) ∘
        (fun i => if i.id == inv.id then { i with used_at := some now } else i))
      = fun i : Invitation => i.token == token := by
    funext i
    by_cases hid : i.id == inv.id <;> simp [Function.comp, hid]
  rw [hcomp, h]
  simp

/-- A successful membership insert appends exactly one row and touches no
other table. -/
theorem insertMembership_ok (s : Store) (m : Membership) (s2 : Store)
    (h : s.insertMembership m = Except.ok s2) :
    s2 = { s with memberships := s.memberships ++ [m] } := by
  unfold Store.insertMembership at h
  split at h
  · cases h
  · exact (Except.ok.inj h).symm

/-- `resolveInvitedUser` reports a new user exactly when no user with the
invitation's email exists. -/
theorem resolveInvitedUser_new (s : Store) (inv : Invitation)
    (password : Option Bytes) (full_name : Option String) (uid : Uuid) (salt : Nat)
    (user : User)
    (h : MembershipService.resolveInvitedUser s inv password full_name uid salt
        = Except.ok (user, true)) :
    s.getUserByEmail inv.email = none := by
  unfold MembershipService.resolveInvitedUser at h
  cases hu : s.getUserByEmail inv.email with
  | none => rfl
  | some u0 => rw [hu] at h; simp at h

/-- `resolveInvitedUser` reuses the stored user when one exists. -/
theorem resolveInvitedUser_existing (s : Store) (inv : Invitation)
    (password : Option Bytes) (full_name : Option String) (uid : Uuid) (salt : Nat)
    (user : User)
    (h : MembershipService.resolveInvitedUser s inv password full_name uid salt
        = Except.ok (user, false)) :
    s.getUserByEmail inv.email = some user := by
  unfold MembershipService.resolveInvitedUser at h
  cases hu : s.getUserByEmail inv.email with
  | some u0 =>
    rw [hu] at h
    simp at h
    exact congrArg some h
  | none =>
    rw [hu] at h
    cases password with
    | none => simp at h
    | some pw =>
      by_cases hpw : pw.isEmpty
      · simp [hpw] at h
      · cases full_name with
        | none => simp [hpw] at h
        | some fn =>
          by_cases hfn : fn.isEmpty
          · simp [hpw, hfn] at h
          · simp [hpw, hfn] at h

/-- Accepting by a token that resolves to an already-used invitation
fails with "already used", before anything else is considered. -/
theorem accept_invitation_marked (s2 : Store) (token : String) (inv' : Invitation)
    (h : MembershipService.get_invitation_by_token s2 token = some inv')
    (hu : inv'.used_at.isSome = true) (pw : Option Bytes) (fn : Option String)
    (now : Time) (uid mid : Uuid) (salt : Nat) :
    MembershipService.accept_invitation s2 token pw fn now uid mid salt
      = Except.error (Err.badRequest "Invitation has already been used") := by
  simp [MembershipService.accept_invitation, h, Invitation.is_used, hu]

/-- **C5**: `accept_invitation` fails NotFound for an unknown token; fails
BadRequest "already used" whenever `used_at` is set, regardless of expiry;
fails BadRequest "expired" for an expired unused invitation; and is
replay-safe: from any successful acceptance, a second call with the same
token fails BadRequest "Invitation has already been used" (whatever
password/name/time it supplies), exactly one membership row was added, and
exactly one user row was added when no user with the invitation's email
existed (none when one did) — the three writes commit together. -/
theorem c5_accept_invitation (s : Store) (token : String) (password : Option Bytes)
    (full_name : Option String) (now : Time) (uid mid : Uuid) (salt : Nat) :
    (MembershipService.get_invitation_by_token s token = none →
      MembershipService.accept_invitation s token password full_name now uid mid salt
        = Except.error (Err.notFound "Invitation not found"))
    ∧ (∀ inv t0, MembershipService.get_invitation_by_token s token = some inv →
        inv.used_at = some t0 →
        MembershipService.accept_invitation s token password full_name now uid mid salt
          = Except.error (Err.badRequest "Invitation has already been used"))
    ∧ (∀ inv, MembershipService.get_invitation_by_token s token = some inv →
        inv.used_at = none → inv.expires_at < now →
        MembershipService.accept_invitation s token password full_name now uid mid salt
          = Except.error (Err.badRequest "Invitation has expired"))
    ∧ (∀ inv s' u m, MembershipService.get_invitation_by_token s token = some inv →
        MembershipService.accept_invitation s token password full_name now uid mid salt
          = Except.ok (s', u, m) →
        (∀ pw2 fn2 now2 uid2 mid2 salt2,
          MembershipService.accept_invitation s' token pw2 fn2 now2 uid2 mid2 salt2
            = Except.error (Err.badRequest "Invitation has already been used"))
        ∧ s'.memberships.length = s.memberships.length + 1
        ∧ (s.getUserByEmail inv.email = none →
            s'.users.length = s.users.length + 1)
        ∧ (∀ u0, s.getUserByEmail inv.email = some u0 →
            s'.users.length = s.users.length)) := by
  refine ⟨?_, ?_, ?_, ?_⟩
  · intro h
    simp [MembershipService.accept_invitation, h]
  · intro inv t0 hinv hused
    simp [MembershipService.accept_invitation, hinv, Invitation.is_used, hused]
  · intro inv hinv hused hexp
    simp [MembershipService.accept_invitation, hinv, Invitation.is_used,
          Invitation.is_expired, hused, hexp]
  · intro inv s' u m hinv hok
    by_cases hused : inv.is_used
    · simp [MembershipService.accept_invitation, hinv, hused] at hok
    by_cases hexp : inv.is_expired now
    · simp [MembershipService.accept_invitation, hinv, hused, hexp] at hok
    cases hres : MembershipService.resolveInvitedUser s inv password full_name uid salt with
    | error e =>
      simp [MembershipService.accept_invitation, hinv, hused, hexp, hres] at hok
    | ok p =>
      obtain ⟨user, isNew⟩ := p
      have hfind0 : s.invitations.find? (fun i => i.token == token) = some inv := hinv
      have hmark := find?_token_mark_used s.invitations token inv now hfind0
      cases isNew with
      | false =>
        cases hins : s.insertMembership
            { id := mid, user_id := user.id, tenant_id := inv.tenant_id,
              roles := inv.roles } with
        | error e =>
          simp [MembershipService.accept_invitation, hinv, hused, hexp, hres, hins] at hok
        | ok s2 =>
          have hs2 := insertMembership_ok _ _ _ hins
          subst hs2
          have hacc : MembershipService.accept_invitation s token password full_name
              now uid mid salt
              = Except.ok
                  ({ s with
                      memberships := s.memberships ++
                        [{ id := mid, user_id := user.id, tenant_id := inv.tenant_id,
                           roles := inv.roles }]
                      invitations := s.invitations.map (fun i =>
                        if i.id == inv.id then { i with used_at := some now } else i) },
                   user,
                   { id := mid, user_id := user.id, tenant_id := inv.tenant_id,
                     roles := inv.roles }) := by
            simp [MembershipService.accept_invitation, hinv, hused, hexp, hres, hins]
          rw [hacc] at hok
          injection hok with htr
          injection htr with h1 h23
          injection h23 with h2 h3
          subst h1; subst h2; subst h3
          refine ⟨?_, by simp, ?_, fun u0 _ => by simp⟩
          · intro pw2 fn2 now2 uid2 mid2 salt2
            refine accept_invitation_marked _ token { inv with used_at := some now }
              ?_ (by simp) pw2 fn2 now2 uid2 mid2 salt2
            exact hmark
          · intro hnone
            exact absurd (resolveInvitedUser_existing s inv password full_name uid salt
              user hres) (by simp [hnone])
      | true =>
        cases hins : (Store.insertMembership { s with users := s.users ++ [user] }
            { id := mid, user_id := user.id, tenant_id := inv.tenant_id,
              roles := inv.roles }) with
        | error e =>
          simp [MembershipService.accept_invitation, hinv, hused, hexp, hres, hins] at hok
        | ok s2 =>
          have hs2 := insertMembership_ok _ _ _ hins
          subst hs2
          have hacc : MembershipService.accept_invitation s token password full_name
              now uid mid salt
              = Except.ok
                  ({ s with
                      users := s.users ++ [user]
                      memberships := s.memberships ++
                        [{ id := mid, user_id := user.id, tenant_id := inv.tenant_id,
                           roles := inv.roles }]
                      invitations := s.invitations.map (fun i =>
                        if i.id == inv.id then { i with used_at := some now } else i) },
                   user,
                   { id := mid, user_id := user.id, tenant_id := inv.tenant_id,
                     roles := inv.roles }) := by
            simp [MembershipService.accept_invitation, hinv, hused, hexp, hres, hins]
          rw [hacc] at hok
          injection hok with htr
          injection htr with h1 h23
          injection h23 with h2 h3
          subst h1; subst h2; subst h3
          refine ⟨?_, by simp, fun _ => by simp, ?_⟩
          · intro pw2 fn2 now2 uid2 mid2 salt2
            refine accept_invitation_marked _ token { inv with used_at := some now }
              ?_ (by simp) pw2 fn2 now2 uid2 mid2 salt2
            exact hmark
          · intro u0 hu0
            exact absurd (resolveInvitedUser_new s inv password full_name uid salt
              user hres) (by simp [hu0])

/-- Concrete invitation for the C5 witness. -/
def c5Inv : Invitation :=
  { id := 40, email := "e@x.com", tenant_id := 10, roles := ["member"],
    token := "tk", expires_at := 1000 }

def c5Store : Store :=
  { tenants := [{ id := 10, project_id := 20, name := "T", slug := "t" }]
    invitations := [c5Inv] }

def c5User : User :=
  { id := 1, email := "e@x.com",
    password_hash := hash_password [1, 1, 1, 1, 1, 1, 1, 1] 0,
    full_name := some "Eve", email_verified := true }

def c5Mem : Membership :=
  { id := 2, user_id := 1, tenant_id := 10, roles := ["member"] }

/-- The store after the first successful acceptance. -/
def c5After : Store :=
  { c5Store with
    users := [c5User]
    memberships := [c5Mem]
    invitations := [{ c5Inv with used_at := some 100 }] }

/-- Witness for C5: after one concrete successful acceptance, replaying the
same token fails "already used". -/
theorem c5_accept_invitation_witness :
    MembershipService.accept_invitation c5After "tk" (some [9]) (some "X") 200 3 4 1
      = Except.error (Err.badRequest "Invitation has already been used") :=
  ((c5_accept_invitation c5Store "tk" (some [1, 1, 1, 1, 1, 1, 1, 1]) (some "Eve")
      100 1 2 0).2.2.2
    c5Inv c5After c5User c5Mem (by rfl) (by rfl)).1 (some [9]) (some "X") 200 3 4 1

/-! ## C3 — refreshToken probing, type gate and re-validation -/

theorem claimUuidGet_ok_iff (payload : ClaimMap) (k : String) (v : Uuid) :
    AuthService.claimUuidGet payload k = Except.ok v
      ↔ claimGet payload k = some (ClaimVal.uuid v) := by
  unfold AuthService.claimUuidGet
  cases h : claimGet payload k with
  | none => simp
  | some cv => cases cv <;> simp

/-- A payload whose `type` claim is not the string "refresh" is rejected
by the re-validation tail with "Invalid token type". -/
theorem refresh_revalidate_not_refresh (s : Store) (payload : ClaimMap) (now : Time)
    (h : claimGet payload "type" ≠ some (ClaimVal.s "refresh")) :
    AuthService.refresh_revalidate s payload now
      = Except.error (Err.unauthorized "Invalid token type") := by
  unfold AuthService.refresh_revalidate
  rw [if_pos (by simpa [bne_iff_ne] using h)]

/-- A successful probe means the returned project's secret decoded the
token to the returned (nonempty) payload. -/
theorem probeProjects_some (ps : List Project) (tok : Token) (now : Time)
    (p : Project) (payload : ClaimMap)
    (h : AuthService.probeProjects ps tok now = some (p, payload)) :
    decode_token tok p.jwt_secret p.jwt_algorithm now = some payload
      ∧ payload ≠ [] := by
  induction ps with
  | nil => simp [AuthService.probeProjects] at h
  | cons q qs ih =>
    unfold AuthService.probeProjects at h
    cases hd : decode_token tok q.jwt_secret q.jwt_algorithm now with
    | none => simp only [hd] at h; exact ih h
    | some pl =>
      simp only [hd] at h
      by_cases he : pl.isEmpty
      · rw [if_pos he] at h; exact ih h
      · rw [if_neg he] at h
        injection h with h'
        injection h' with h1 h2
        subst h1; subst h2
        exact ⟨hd, by simpa using he⟩

/-- A successful re-validation pins down the whole decoded grant: a
"refresh"-typed payload whose user, membership, tenant and owning project
all still exist and are active, and the response is a freshly minted
token pair for them. -/
theorem refresh_revalidate_ok (s : Store) (payload : ClaimMap) (now : Time)
    (resp : TokenResponse)
    (h : AuthService.refresh_revalidate s payload now = Except.ok resp) :
    claimGet payload "type" = some (ClaimVal.s "refresh")
    ∧ ∃ user_id tenant_id user membership tenant project,
        claimGet payload "sub" = some (ClaimVal.uuid user_id)
        ∧ claimGet payload "tenant_id" = some (ClaimVal.uuid tenant_id)
        ∧ s.getUser user_id = some user ∧ user.is_active = true
        ∧ s.getMembership user_id tenant_id = some membership
        ∧ membership.is_active = true
        ∧ s.getTenant tenant_id = some tenant ∧ tenant.is_active = true
        ∧ s.getProject tenant.project_id = some project ∧ project.is_active = true
        ∧ resp = AuthService.generate_tokens user tenant project membership now := by
  unfold AuthService.refresh_revalidate at h
  by_cases hty : claimGet payload "type" != some (ClaimVal.s "refresh")
  · rw [if_pos hty] at h; cases h
  · rw [if_neg hty] at h
    have hty' : claimGet payload "type" = some (ClaimVal.s "refresh") := by
      by_contra hne
      exact hty (bne_iff_ne.mpr hne)
    refine ⟨hty', ?_⟩
    cases h1 : AuthService.claimUuidGet payload "sub" with
    | error e => rw [h1] at h; simp [Bind.bind, Except.bind] at h
    | ok user_id =>
      rw [h1] at h
      cases h2 : AuthService.claimUuidGet payload "tenant_id" with
      | error e => rw [h2] at h; simp [Bind.bind, Except.bind] at h
      | ok tenant_id =>
        rw [h2] at h
        simp only [Bind.bind, Except.bind] at h
        cases h3 : s.getUser user_id with
        | none => simp only [h3] at h; cases h
        | some user =>
          simp only [h3] at h
          by_cases h4 : user.is_active
          · rw [if_neg (by simpa using h4)] at h
            cases h5 : s.getMembership user_id tenant_id with
            | none => simp only [h5] at h; cases h
            | some membership =>
              simp only [h5] at h
              by_cases h6 : membership.is_active
              · rw [if_neg (by simpa using h6)] at h
                cases h7 : s.getTenant tenant_id with
                | none => simp only [h7] at h; cases h
                | some tenant =>
                  simp only [h7] at h
                  by_cases h8 : tenant.is_active
                  · rw [if_neg (by simpa using h8)] at h
                    cases h9 : s.getProject tenant.project_id with
                    | none => simp only [h9] at h; cases h
                    | some project =>
                      simp only [h9] at h
                      by_cases h10 : project.is_active
                      · rw [if_neg (by simpa using h10)] at h
                        refine ⟨user_id, tenant_id, user, membership, tenant, project,
                          (claimUuidGet_ok_iff payload "sub" user_id).mp h1,
                          (claimUuidGet_ok_iff payload "tenant_id" tenant_id).mp h2,
                          h3, by simpa using h4, h5, by simpa using h6,
                          h7, by simpa using h8, h9, by simpa using h10,
                          (Except.ok.inj h).symm⟩
                      · rw [if_pos (by simpa using h10)] at h; cases h
                  · rw [if_pos (by simpa using h8)] at h; cases h
              · rw [if_pos (by simpa using h6)] at h; cases h
          · rw [if_pos (by simpa using h4)] at h; cases h

/-- Any successful decode of a `_generate_tokens` **access** token yields
a payload whose `type` claim is "access". -/
theorem decode_access_token_type (u : User) (t : Tenant) (pr : Project)
    (mem : Membership) (t0 : Time) (sec : Bytes) (alg : String) (now : Time)
    (payload : ClaimMap)
    (h : decode_token (AuthService.generate_tokens u t pr mem t0).access_token
          sec alg now = some payload) :
    claimGet payload "type" = some (ClaimVal.s "access") := by
  simp only [AuthService.generate_tokens, create_access_token] at h
  simp only [decode_token] at h
  have hpl : payload =
      dictUpdate
        (dictUpdate
          [("sub", ClaimVal.uuid u.id), ("email", ClaimVal.s u.email),
           ("tenant_id", ClaimVal.uuid t.id), ("project_id", ClaimVal.uuid t.project_id),
           ("roles", ClaimVal.roles mem.roles)]
          [("type", ClaimVal.s "access")])
        [("exp", ClaimVal.n (if 60 * pr.jwt_expiration_minutes ≠ 0 then
              t0 + 60 * pr.jwt_expiration_minutes
            else t0 + 60 * settingsAccessTokenExpireMinutes)),
         ("iat", ClaimVal.n t0)] := by
    split at h
    · split at h
      · split at h
        · cases h
        · exact (Option.some.inj h).symm
      · cases h
      · exact (Option.some.inj h).symm
    · cases h
  rw [hpl]
  simp [dictUpdate, claimGet_claimSet]

/-- **C3**: `refresh_token` without an API key probes each **active**
project's secret in sequence — skipping every project whose decode fails
and stopping at the first that decodes to a (nonempty) payload — and fails
with the generic Unauthorized when no secret decodes the token; a decoded
payload whose `type` claim is not "refresh" is rejected Unauthorized (so
in particular an access token can never be replayed as a refresh token,
with or without an API key); and a success implies the token's user,
membership, tenant and owning project are all still active, the response
being a freshly minted pair for that grant. -/
theorem c3_refresh_token_probing (s : Store) (tok : Token) (now : Time) :
    (∀ (p : Project) (ps : List Project),
        decode_token tok p.jwt_secret p.jwt_algorithm now = none →
        AuthService.probeProjects (p :: ps) tok now
          = AuthService.probeProjects ps tok now)
    ∧ (∀ (p : Project) (ps : List Project) (payload : ClaimMap),
        decode_token tok p.jwt_secret p.jwt_algorithm now = some payload →
        payload ≠ [] →
        AuthService.probeProjects (p :: ps) tok now = some (p, payload))
    ∧ (AuthService.probeProjects (s.projects.filter (fun p => p.is_active)) tok now
          = none →
        AuthService.refresh_token s tok none now
          = Except.error (Err.unauthorized "Invalid or expired refresh token"))
    ∧ (∀ p payload,
        AuthService.probeProjects (s.projects.filter (fun p => p.is_active)) tok now
            = some (p, payload) →
        claimGet payload "type" ≠ some (ClaimVal.s "refresh") →
        AuthService.refresh_token s tok none now
          = Except.error (Err.unauthorized "Invalid token type"))
    ∧ (∀ resp, AuthService.refresh_token s tok none now = Except.ok resp →
        ∃ p payload user_id tenant_id user membership tenant project,
          AuthService.probeProjects (s.projects.filter (fun p => p.is_active)) tok now
              = some (p, payload)
          ∧ decode_token tok p.jwt_secret p.jwt_algorithm now = some payload
          ∧ claimGet payload "type" = some (ClaimVal.s "refresh")
          ∧ claimGet payload "sub" = some (ClaimVal.uuid user_id)
          ∧ claimGet payload "tenant_id" = some (ClaimVal.uuid tenant_id)
          ∧ s.getUser user_id = some user ∧ user.is_active = true
          ∧ s.getMembership user_id tenant_id = some membership
          ∧ membership.is_active = true
          ∧ s.getTenant tenant_id = some tenant ∧ tenant.is_active = true
          ∧ s.getProject tenant.project_id = some project ∧ project.is_active = true
          ∧ resp = AuthService.generate_tokens user tenant project membership now)
    ∧ (∀ (u : User) (t : Tenant) (pr : Project) (mem : Membership) (t0 : Time)
        (key : Option Bytes),
        ∃ e, AuthService.refresh_token s
            (AuthService.generate_tokens u t pr mem t0).access_token key now
          = Except.error e) := by
  refine ⟨?_, ?_, ?_, ?_, ?_, ?_⟩
  · intro p ps hd
    simp [AuthService.probeProjects, hd]
  · intro p ps payload hd hne
    cases payload with
    | nil => exact absurd rfl hne
    | cons a rest => simp [AuthService.probeProjects, hd]
  · intro hp
    simp [AuthService.refresh_token, hp]
  · intro p payload hp hty
    simp [AuthService.refresh_token, hp,
          refresh_revalidate_not_refresh s payload now hty]
  · intro resp h
    unfold AuthService.refresh_token at h
    cases hp : AuthService.probeProjects (s.projects.filter (fun p => p.is_active))
        tok now with
    | none => rw [hp] at h; cases h
    | some pp =>
      obtain ⟨p, payload⟩ := pp
      rw [hp] at h
      obtain ⟨hd, -⟩ := probeProjects_some _ _ _ _ _ hp
      obtain ⟨hty, user_id, tenant_id, user, membership, tenant, project, hrest⟩ :=
        refresh_revalidate_ok s payload now resp h
      exact ⟨p, payload, user_id, tenant_id, user, membership, tenant, project,
        rfl, hd, hty, hrest.1, hrest.2.1, hrest.2.2.1, hrest.2.2.2.1, hrest.2.2.2.2.1,
        hrest.2.2.2.2.2.1, hrest.2.2.2.2.2.2.1, hrest.2.2.2.2.2.2.2.1,
        hrest.2.2.2.2.2.2.2.2.1, hrest.2.2.2.2.2.2.2.2.2.1,
        hrest.2.2.2.2.2.2.2.2.2.2⟩
  · intro u t pr mem t0 key
    cases key with
    | some k =>
      cases hf : AuthService.find_project_by_api_key s k with
      | none =>
        exact ⟨Err.unauthorized "Invalid API key",
          by simp [AuthService.refresh_token, hf]⟩
      | some project =>
        cases hd : decode_token (AuthService.generate_tokens u t pr mem t0).access_token
            project.jwt_secret project.jwt_algorithm now with
        | none =>
          exact ⟨Err.unauthorized "Invalid or expired refresh token",
            by simp [AuthService.refresh_token, hf, hd]⟩
        | some payload =>
          by_cases he : payload.isEmpty
          · exact ⟨Err.unauthorized "Invalid or expired refresh token",
              by simp [AuthService.refresh_token, hf, hd, he]⟩
          · have hty := decode_access_token_type u t pr mem t0 _ _ now payload hd
            exact ⟨Err.unauthorized "Invalid token type",
              by simp [AuthService.refresh_token, hf, hd, he,
                       refresh_revalidate_not_refresh s payload now (by simp [hty])]⟩
    | none =>
      cases hp : AuthService.probeProjects (s.projects.filter (fun p => p.is_active))
          (AuthService.generate_tokens u t pr mem t0).access_token now with
      | none =>
        exact ⟨Err.unauthorized "Invalid or expired refresh token",
          by simp [AuthService.refresh_token, hp]⟩
      | some pp =>
        obtain ⟨p, payload⟩ := pp
        obtain ⟨hd, -⟩ := probeProjects_some _ _ _ _ _ hp
        have hty := decode_access_token_type u t pr mem t0 _ _ now payload hd
        exact ⟨Err.unauthorized "Invalid token type",
          by simp [AuthService.refresh_token, hp,
                   refresh_revalidate_not_refresh s payload now (by simp [hty])]⟩

/-- Three active projects with distinct secrets, for the C3 witness. -/
def c3P1 : Project :=
  { id := 21, name := "P1", slug := "p1", tenant_strategy := "schema",
    api_key_hash := hash_secret [31], client_id := "c1",
    client_secret_hash := hash_secret [41], jwt_secret := [11] }

def c3P2 : Project :=
  { id := 22, name := "P2", slug := "p2", tenant_strategy := "schema",
    api_key_hash := hash_secret [32], client_id := "c2",
    client_secret_hash := hash_secret [42], jwt_secret := [12] }

def c3P3 : Project :=
  { id := 23, name := "P3", slug := "p3", tenant_strategy := "schema",
    api_key_hash := hash_secret [33], client_id := "c3",
    client_secret_hash := hash_secret [43], jwt_secret := [13] }

def c3User : User :=
  { id := 1, email := "a@x.com", password_hash := hash_password [1] 0 }

def c3Tenant : Tenant := { id := 10, project_id := 22, name := "T", slug := "t" }

def c3Mem : Membership := { id := 30, user_id := 1, tenant_id := 10, roles := ["r"] }

def c3Store : Store :=
  { projects := [c3P1, c3P2, c3P3], tenants := [c3Tenant], users := [c3User],
    memberships := [c3Mem] }

/-- A refresh token issued (at time 0) by the **second** project's secret. -/
def c3Rtok : Token :=
  (AuthService.generate_tokens c3User c3Tenant c3P2 c3Mem 0).refresh_token

/-- Its decoded payload. -/
def c3RtokPayload : ClaimMap :=
  [("sub", ClaimVal.uuid 1), ("email", ClaimVal.s "a@x.com"),
   ("tenant_id", ClaimVal.uuid 10), ("project_id", ClaimVal.uuid 22),
   ("roles", ClaimVal.roles ["r"]), ("exp", ClaimVal.n 604800),
   ("iat", ClaimVal.n 0), ("type", ClaimVal.s "refresh")]

/-- Witness for C3: probing skips project 1 (its secret fails to decode),
stops at project 2 with the decoded payload, and a token no secret decodes
is rejected with the generic Unauthorized. -/
theorem c3_refresh_token_probing_witness :
    AuthService.probeProjects [c3P1, c3P2, c3P3] c3Rtok 50
      = AuthService.probeProjects [c3P2, c3P3] c3Rtok 50
    ∧ AuthService.probeProjects [c3P2, c3P3] c3Rtok 50
      = some (c3P2, c3RtokPayload)
    ∧ AuthService.refresh_token c3Store (Token.malformed "junk") none 50
      = Except.error (Err.unauthorized "Invalid or expired refresh token") :=
  ⟨(c3_refresh_token_probing c3Store c3Rtok 50).1 c3P1 [c3P2, c3P3] (by decide),
   (c3_refresh_token_probing c3Store c3Rtok 50).2.1 c3P2 [c3P3] c3RtokPayload
     (by decide) (by decide),
   (c3_refresh_token_probing c3Store (Token.malformed "junk") 50).2.2.1 (by rfl)⟩

/-! ## C9 — membership (user_id, tenant_id) uniqueness -/

/-- At most one membership row per (user_id, tenant_id) pair. -/
def UniquePairs (s : Store) : Prop :=
  s.memberships.Pairwise
    (fun a b => ¬(a.user_id = b.user_id ∧ a.tenant_id = b.tenant_id))

/-- A successful insert implies the store had no row with the new pair. -/
theorem insertMembership_ok_any (s : Store) (m : Membership) (s2 : Store)
    (h : s.insertMembership m = Except.ok s2) :
    s.memberships.any
        (fun x => x.user_id == m.user_id && x.tenant_id == m.tenant_id) = false := by
  unfold Store.insertMembership at h
  split at h
  · cases h
  · rename_i hany
    exact Bool.eq_false_iff.mpr hany

/-- A successful insert preserves the uniqueness invariant (this is the
`uq_membership_user_tenant` constraint at work). -/
theorem uniquePairs_insert (s : Store) (m : Membership) (s2 : Store)
    (h : s.insertMembership m = Except.ok s2) (hu : UniquePairs s) :
    UniquePairs s2 := by
  have hany := insertMembership_ok_any s m s2 h
  have hs2 := insertMembership_ok s m s2 h
  subst hs2
  unfold UniquePairs
  rw [List.pairwise_append]
  refine ⟨hu, by simp, ?_⟩
  intro a ha b hb
  rw [List.mem_singleton] at hb
  subst hb
  have hall := List.any_eq_false.mp hany a ha
  intro hcon
  exact hall (by simp [hcon.1, hcon.2])

/-- What a successful `MembershipService.create` pins down: the pair was
free, the returned row carries the requested pair, and the store change is
exactly the constrained insert. -/
theorem create_ok_spec (s : Store) (data : MembershipCreateData) (newId : Uuid)
    (s' : Store) (m : Membership)
    (h : MembershipService.create s data newId = Except.ok (s', m)) :
    MembershipService.get_by_user_and_tenant s data.user_id data.tenant_id = none
    ∧ m = { id := newId, user_id := data.user_id, tenant_id := data.tenant_id,
            roles := data.roles }
    ∧ s.insertMembership m = Except.ok s' := by
  unfold MembershipService.create at h
  cases h1 : MembershipService.get_by_user_and_tenant s data.user_id data.tenant_id with
  | some _ => simp only [h1] at h; cases h
  | none =>
    simp only [h1] at h
    cases h2 : s.getUser data.user_id with
    | none => simp only [h2] at h; cases h
    | some _ =>
      simp only [h2] at h
      cases h3 : s.getTenant data.tenant_id with
      | none => simp only [h3] at h; cases h
      | some _ =>
        simp only [h3] at h
        cases h4 : s.insertMembership
            { id := newId, user_id := data.user_id, tenant_id := data.tenant_id,
              roles := data.roles } with
        | error e => rw [h4] at h; simp [Except.map] at h
        | ok s2 =>
          rw [h4] at h
          simp only [Except.map] at h
          injection h with hpair
          injection hpair with hs hm
          subst hs
          subst hm
          exact ⟨rfl, rfl, h4⟩

/-- A successful acceptance appends exactly its new membership row, whose
pair was free beforehand. -/
theorem accept_ok_memberships (s : Store) (token : String) (password : Option Bytes)
    (full_name : Option String) (now : Time) (uid mid : Uuid) (salt : Nat)
    (s' : Store) (u : User) (m : Membership)
    (h : MembershipService.accept_invitation s token password full_name now uid mid salt
        = Except.ok (s', u, m)) :
    s'.memberships = s.memberships ++ [m]
    ∧ s.memberships.any
        (fun x => x.user_id == m.user_id && x.tenant_id == m.tenant_id) = false := by
  cases hinv : MembershipService.get_invitation_by_token s token with
  | none => simp [MembershipService.accept_invitation, hinv] at h
  | some inv =>
    by_cases hused : inv.is_used
    · simp [MembershipService.accept_invitation, hinv, hused] at h
    by_cases hexp : inv.is_expired now
    · simp [MembershipService.accept_invitation, hinv, hused, hexp] at h
    cases hres : MembershipService.resolveInvitedUser s inv password full_name uid salt with
    | error e =>
      simp [MembershipService.accept_invitation, hinv, hused, hexp, hres] at h
    | ok p =>
      obtain ⟨user, isNew⟩ := p
      cases isNew with
      | false =>
        cases hins : s.insertMembership
            { id := mid, user_id := user.id, tenant_id := inv.tenant_id,
              roles := inv.roles } with
        | error e =>
          simp [MembershipService.accept_invitation, hinv, hused, hexp, hres, hins] at h
        | ok s2 =>
          have hany := insertMembership_ok_any _ _ _ hins
          have hs2 := insertMembership_ok _ _ _ hins
          subst hs2
          have hacc : MembershipService.accept_invitation s token password full_name
              now uid mid salt
              = Except.ok
                  ({ s with
                      memberships := s.memberships ++
                        [{ id := mid, user_id := user.id, tenant_id := inv.tenant_id,
                           roles := inv.roles }]
                      invitations := s.invitations.map (fun i =>
                        if i.id == inv.id then { i with used_at := some now } else i) },
                   user,
                   { id := mid, user_id := user.id, tenant_id := inv.tenant_id,
                     roles := inv.roles }) := by
            simp [MembershipService.accept_invitation, hinv, hused, hexp, hres, hins]
          rw [hacc] at h
          injection h with htr
          injection htr with h1 h23
          injection h23 with h2 h3
          subst h1; subst h2; subst h3
          exact ⟨rfl, hany⟩
      | true =>
        cases hins : (Store.insertMembership { s with users := s.users ++ [user] }
            { id := mid, user_id := user.id, tenant_id := inv.tenant_id,
              roles := inv.roles }) with
        | error e =>
          simp [MembershipService.accept_invitation, hinv, hused, hexp, hres, hins] at h
        | ok s2 =>
          have hany := insertMembership_ok_any _ _ _ hins
          have hs2 := insertMembership_ok _ _ _ hins
          subst hs2
          have hacc : MembershipService.accept_invitation s token password full_name
              now uid mid salt
              = Except.ok
                  ({ s with
                      users := s.users ++ [user]
                      memberships := s.memberships ++
                        [{ id := mid, user_id := user.id, tenant_id := inv.tenant_id,
                           roles := inv.roles }]
                      invitations := s.invitations.map (fun i =>
                        if i.id == inv.id then { i with used_at := some now } else i) },
                   user,
                   { id := mid, user_id := user.id, tenant_id := inv.tenant_id,
                     roles := inv.roles }) := by
            simp [MembershipService.accept_invitation, hinv, hused, hexp, hres, hins]
          rw [hacc] at h
          injection h with htr
          injection htr with h1 h23
          injection h23 with h2 h3
          subst h1; subst h2; subst h3
          exact ⟨rfl, by simpa using hany⟩

/-- The roles/is_active patch of `update` never touches the pair fields. -/
theorem applyMembershipUpdate_pair (data : MembershipUpdateData) (m : Membership) :
    (MembershipService.applyMembershipUpdate data m).user_id = m.user_id
    ∧ (MembershipService.applyMembershipUpdate data m).tenant_id = m.tenant_id := by
  unfold MembershipService.applyMembershipUpdate
  cases data.roles <;> cases data.is_active <;> simp

/-- Every membership-engine operation preserves pair uniqueness (errors
roll back, `create` pre-checks, `accept` hits the unique constraint,
`update` cannot change the pair, `delete` removes). -/
theorem uniquePairs_step (s : Store) (op : MOp) (h : UniquePairs s) :
    UniquePairs (MOp.step s op) := by
  cases op with
  | create data newId =>
    simp only [MOp.step]
    cases hc : MembershipService.create s data newId with
    | error e => exact h
    | ok p =>
      obtain ⟨s', m⟩ := p
      obtain ⟨-, -, hins⟩ := create_ok_spec s data newId s' m hc
      exact uniquePairs_insert s m s' hins h
  | accept tok pw fn now uid mid salt =>
    simp only [MOp.step]
    cases hc : MembershipService.accept_invitation s tok pw fn now uid mid salt with
    | error e => exact h
    | ok t =>
      obtain ⟨s', u, m⟩ := t
      obtain ⟨hmem, hany⟩ := accept_ok_memberships s tok pw fn now uid mid salt s' u m hc
      unfold UniquePairs
      rw [hmem, List.pairwise_append]
      refine ⟨h, by simp, ?_⟩
      intro a ha b hb
      rw [List.mem_singleton] at hb
      subst hb
      have hall := List.any_eq_false.mp hany a ha
      intro hcon
      exact hall (by simp [hcon.1, hcon.2])
  | update mid data =>
    simp only [MOp.step]
    cases hc : MembershipService.update s mid data with
    | error e => exact h
    | ok p =>
      obtain ⟨s', m⟩ := p
      have hmem : s'.memberships = s.memberships.map (fun x =>
          if x.id == mid then MembershipService.applyMembershipUpdate data x else x) := by
        unfold MembershipService.update at hc
        cases hf : s.memberships.find? (fun x => x.id == mid) with
        | none => simp only [hf] at hc; cases hc
        | some m0 =>
          simp only [hf] at hc
          injection hc with hpair
          injection hpair with hs hm
          rw [← hs]
      unfold UniquePairs
      rw [hmem, List.pairwise_map]
      refine List.Pairwise.imp ?_ h
      intro a b hab
      have hpa : ∀ x : Membership,
          (if x.id == mid then MembershipService.applyMembershipUpdate data x else x).user_id
            = x.user_id
          ∧ (if x.id == mid then MembershipService.applyMembershipUpdate data x else x).tenant_id
            = x.tenant_id := by
        intro x
        by_cases hid : x.id == mid
        · simp only [hid, if_true]
          exact applyMembershipUpdate_pair data x
        · simp [hid]
      intro hcon
      exact hab ⟨((hpa a).1.symm.trans hcon.1).trans (hpa b).1,
                 ((hpa a).2.symm.trans hcon.2).trans (hpa b).2⟩
  | delete mid =>
    simp only [MOp.step]
    cases hc : MembershipService.delete s mid with
    | error e => exact h
    | ok s' =>
      have hmem : s'.memberships = s.memberships.eraseP (fun x => x.id == mid) := by
        unfold MembershipService.delete at hc
        cases hf : s.memberships.find? (fun x => x.id == mid) with
        | none => simp only [hf] at hc; cases hc
        | some m0 =>
          simp only [hf] at hc
          injection hc with hs
          rw [← hs]
      unfold UniquePairs
      rw [hmem]
      exact h.sublist (List.eraseP_sublist _)

/-- **C9**: after any sequence of membership-engine operations starting
from a store with unique pairs, at most one membership exists per
(user_id, tenant_id); and of two create calls with the same pair the
second fails BadRequest, leaving exactly one row with that pair. -/
theorem c9_membership_uniqueness :
    (∀ (s : Store) (ops : List MOp), UniquePairs s →
      UniquePairs (ops.foldl MOp.step s))
    ∧ (∀ (s : Store) (d1 d2 : MembershipCreateData) (id1 id2 : Uuid)
        (s1 : Store) (m1 : Membership),
        d2.user_id = d1.user_id → d2.tenant_id = d1.tenant_id →
        MembershipService.create s d1 id1 = Except.ok (s1, m1) →
        MembershipService.create s1 d2 id2
            = Except.error (Err.badRequest "User is already a member of this tenant")
        ∧ (s1.memberships.filter (fun x =>
            x.user_id == d1.user_id && x.tenant_id == d1.tenant_id)).length = 1) := by
  constructor
  · intro s ops hu
    induction ops generalizing s with
    | nil => exact hu
    | cons op ops ih => exact ih (MOp.step s op) (uniquePairs_step s op hu)
  · intro s d1 d2 id1 id2 s1 m1 hu2 ht2 hc
    obtain ⟨hnone, hm, hins⟩ := create_ok_spec s d1 id1 s1 m1 hc
    have hs1 := insertMembership_ok _ _ _ hins
    subst hs1
    have hnone' : s.memberships.find? (fun x =>
        x.user_id == d1.user_id && x.tenant_id == d1.tenant_id) = none := hnone
    have hfind : ({ s with memberships := s.memberships ++ [m1] } : Store).getMembership
        d2.user_id d2.tenant_id = some m1 := by
      unfold Store.getMembership
      rw [hu2, ht2]
      simp only [List.find?_append, hnone', Option.none_or]
      simp [List.find?, hm]
    constructor
    · unfold MembershipService.create MembershipService.get_by_user_and_tenant
      rw [hfind]
    · rw [show ({ s with memberships := s.memberships ++ [m1] } : Store).memberships
          = s.memberships ++ [m1] from rfl]
      rw [List.filter_append]
      have hflt : s.memberships.filter (fun x =>
          x.user_id == d1.user_id && x.tenant_id == d1.tenant_id) = [] := by
        simp only [List.filter_eq_nil_iff]
        intro a ha
        have := List.find?_eq_none.mp hnone' a ha
        simpa using this
      rw [hflt]
      simp [hm]

/-- A user and tenant with no membership yet, for the C9 witness. -/
def c9Store : Store :=
  { tenants := [{ id := 10, project_id := 20, name := "T", slug := "t" }]
    users := [{ id := 1, email := "a@x.com", password_hash := hash_password [1] 0 }] }

def c9M1 : Membership := { id := 30, user_id := 1, tenant_id := 10, roles := ["r"] }

def c9Store1 : Store := { c9Store with memberships := [c9M1] }

/-- Witness for C9: the invariant survives one concrete create, and a
duplicate create fails leaving one row. -/
theorem c9_membership_uniqueness_witness :
    UniquePairs ([MOp.create ⟨1, 10, ["r"]⟩ 30].foldl MOp.step c9Store)
    ∧ (MembershipService.create c9Store1 ⟨1, 10, ["x"]⟩ 31
        = Except.error (Err.badRequest "User is already a member of this tenant")
      ∧ (c9Store1.memberships.filter (fun x =>
          x.user_id == 1 && x.tenant_id == 10)).length = 1) :=
  ⟨c9_membership_uniqueness.1 c9Store [MOp.create ⟨1, 10, ["r"]⟩ 30] List.Pairwise.nil,
   c9_membership_uniqueness.2 c9Store ⟨1, 10, ["r"]⟩ ⟨1, 10, ["x"]⟩ 30 31 c9Store1 c9M1
     rfl rfl (by rfl)⟩

example : verify_password [1, 2, 3] (hash_password [1, 2, 3] 5) = true := by decide

example : verify_secret [9] (hash_password [9] 5) = false := by decide

example :
    decode_token (create_access_token [("a", ClaimVal.n 1)] [7] "HS256" (some 60) 100)
      [7] "HS256" 120
      = some [("a", ClaimVal.n 1), ("exp", ClaimVal.n 160), ("iat", ClaimVal.n 100)] := by
  decide

example :
    decode_token (create_access_token [("a", ClaimVal.n 1)] [7] "HS256" (some 60) 100)
      [7] "HS256" 161 = none := by decide

end GestionSaas
